import Mathlib

/-!
Shallow embedding of `src/binary/object.hpp` from cpptrace: address-to-object
resolution. The file has three platform variants of `get_frame_object_info`
(the `_dl_find_object` fast path, the `dladdr1` fallback, and the Windows
handle-based path with a module-name cache), a batch wrapper
`get_frames_object_info`, and the deferred resolver
`resolve_safe_object_frame`.

Machine pointers (`frame_ptr` / `std::uintptr_t`) are modelled as `Nat` with
explicit arithmetic modulo `2 ^ 64`. OS introspection calls and the external
Image Base Provider (`get_module_image_base`, declared in `module_base.hpp`,
outside this file) are modelled as fields of an environment record `Env`:
each is a pure function describing what the OS / provider answers in the
current process state.
-/

namespace Cpptrace

/-- Width of a pointer: the code does all address arithmetic in
`std::uintptr_t`, i.e. modulo `2 ^ 64` on the 64-bit targets at hand. -/
def PTR_WIDTH : Nat := 2 ^ 64

/-- Wrap-around addition of two pointer-width unsigned integers. -/
def wadd (a b : Nat) : Nat := (a + b) % PTR_WIDTH

/-- Wrap-around subtraction `a - b` of pointer-width unsigned integers. -/
def wsub (a b : Nat) : Nat := (a + (PTR_WIDTH - b % PTR_WIDTH)) % PTR_WIDTH

/-- The error value carried by a failed image-base lookup
(`get_module_image_base` returns a `Result<_, internal_error>`; the deferred
resolver rethrows it). -/
structure internal_error where
  message : String
deriving DecidableEq, Repr

/-- `object_frame` from the source: raw runtime address, object-relative
address (`object_address`, zero when unresolved) and the owning object's
path. -/
structure object_frame where
  raw_address : Nat
  object_address : Nat
  object_path : String
deriving DecidableEq, Repr

/-- `safe_object_frame` from the source: a cheaply captured record holding the
raw address, the offset of the address within the mapped object, and the
object's path; the static image base has not yet been applied. -/
structure safe_object_frame where
  raw_address : Nat
  address_relative_to_object_start : Nat
  object_path : String
deriving DecidableEq, Repr

/-- What `_dl_find_object` reports through `result.dlfo_link_map`: the
`l_name` C string (`none` models a null pointer) and the load bias
`l_addr`. -/
structure link_map_entry where
  l_name : Option String
  l_addr : Nat
deriving DecidableEq, Repr

/-- What `dladdr1(..., RTLD_DL_LINKMAP)` reports on success: the link map's
`l_name` (`none` models a null pointer) and `info.dli_fbase`, the runtime
load base of the owning object. -/
structure dladdr_entry where
  l_name : Option String
  dli_fbase : Nat
deriving DecidableEq, Repr

/-- The process state the code queries: each field is one OS primitive or the
external Image Base Provider, as a pure function of its argument. A fixed
`Env` models one process state with no module load/unload activity. -/
structure Env where
  /-- `readlink("/proc/self/exe", ...)`: the running executable's path, or
  `none` when the call fails. -/
  self_exe : Option String
  /-- `_dl_find_object(address, &result)`: `some` on success (return 0). -/
  dl_find_object_result : Nat → Option link_map_entry
  /-- `dladdr1(address, &info, &link_map_info, RTLD_DL_LINKMAP)`: `some` on a
  nonzero return. -/
  dladdr1_result : Nat → Option dladdr_entry
  /-- The Image Base Provider `get_module_image_base(path)` from
  `module_base.hpp`: the object's static (link-time) image base, or an
  error. -/
  get_module_image_base : String → Except internal_error Nat
  /-- `GetModuleHandleExA(..FROM_ADDRESS, address, &handle)`: the owning
  module's handle (its numeric value), or `none` on failure. -/
  module_handle_from_address : Nat → Option Nat
  /-- `GetModuleFileNameA(handle, ...)`: the module's path, or `none` when
  the call fails (returns 0). -/
  module_file_name : Nat → Option String

/-- `resolve_l_name`: a non-null, non-empty `l_name` is the object's path;
otherwise the address belongs to the running executable, whose path is read
from `/proc/self/exe` (empty string when that read fails). -/
def resolve_l_name (env : Env) : Option String → String
  | some s => if s = "" then (match env.self_exe with | some p => p | none => "") else s
  | none => match env.self_exe with | some p => p | none => ""

/-- `get_frame_object_info`, `CPPTRACE_HAS_DL_FIND_OBJECT` variant: query
`_dl_find_object`; on success set the path from `l_name` and
`object_address = address - l_addr`; on failure leave the zero/empty frame. -/
def get_frame_object_info_dlfo (env : Env) (address : Nat) : object_frame :=
  match env.dl_find_object_result address with
  | none => { raw_address := address, object_address := 0, object_path := "" }
  | some r =>
    { raw_address := address
      object_address := wsub address r.l_addr
      object_path := resolve_l_name env r.l_name }

/-- `get_frame_object_info`, `dladdr1` fallback variant: on a successful
query, resolve the path from the link map's `l_name`, ask the Image Base
Provider, and on its success set
`object_address = address - dli_fbase + static base`; a provider failure is
dropped and `object_address` stays `0`. A failed query leaves the zero/empty
frame. -/
def get_frame_object_info (env : Env) (address : Nat) : object_frame :=
  match env.dladdr1_result address with
  | none => { raw_address := address, object_address := 0, object_path := "" }
  | some info =>
    let path := resolve_l_name env info.l_name
    match env.get_module_image_base path with
    | Except.ok base =>
      { raw_address := address
        object_address := wadd (wsub address info.dli_fbase) base
        object_path := path }
    | Except.error _ =>
      { raw_address := address, object_address := 0, object_path := path }

/-- The Windows module-name cache (`static std::unordered_map<HMODULE,
std::string>` in `get_module_name`), as an association list from handle
values to cached paths. -/
abbrev ModuleCache : Type := List (Nat × String)

/-- The answer `GetModuleFileNameA` gives for a handle, with a failing call
mapped to the empty string (what `get_module_name` stores and returns on
failure). -/
def module_name_of (env : Env) (handle : Nat) : String :=
  match env.module_file_name handle with
  | some p => p
  | none => ""

/-- `get_module_name(handle)`: look the handle up in the cache; on a miss
call `GetModuleFileNameA`, cache its path on success and an empty string on
failure, and return it. The `Bool` records whether the platform query was
issued by this call (true exactly on a cache miss). -/
def get_module_name (env : Env) (cache : ModuleCache) (handle : Nat) :
    String × ModuleCache × Bool :=
  match List.lookup handle cache with
  | some p => (p, cache, false)
  | none =>
    match env.module_file_name handle with
    | some path => (path, (handle, path) :: cache, true)
    | none => ("", (handle, "") :: cache, true)

/-- `get_frame_object_info`, Windows variant: resolve the owning module's
handle from the address; translate it to a path through the cache; ask the
Image Base Provider and on success set
`object_address = address - handle + static base` (an `HMODULE` is the
module's base address); a provider failure is dropped. A failed handle
lookup leaves the zero/empty frame. Returns the frame and the updated
cache. -/
def get_frame_object_info_windows (env : Env) (cache : ModuleCache)
    (address : Nat) : object_frame × ModuleCache :=
  match env.module_handle_from_address address with
  | none => ({ raw_address := address, object_address := 0, object_path := "" }, cache)
  | some handle =>
    let r := get_module_name env cache handle
    match env.get_module_image_base r.1 with
    | Except.ok base =>
      ({ raw_address := address
         object_address := wadd (wsub address handle) base
         object_path := r.1 }, r.2.1)
    | Except.error _ =>
      ({ raw_address := address, object_address := 0, object_path := r.1 }, r.2.1)

/-- `get_frames_object_info`: the batch wrapper pushes
`get_frame_object_info(address)` for each address in order. -/
def get_frames_object_info (env : Env) (addresses : List Nat) :
    List object_frame :=
  addresses.map (get_frame_object_info env)

/-- The batch loop as compiled on Windows, where the cache state threads
through the successive `get_frame_object_info` calls. -/
def get_frames_object_info_windows (env : Env) (cache : ModuleCache) :
    List Nat → List object_frame × ModuleCache
  | [] => ([], cache)
  | a :: rest =>
    let fc := get_frame_object_info_windows env cache a
    let rc := get_frames_object_info_windows env fc.2 rest
    (fc.1 :: rc.1, rc.2)

/-- `resolve_safe_object_frame`: ask the Image Base Provider for the frame's
object path; on failure rethrow the error (modelled as `Except.error`); on
success return the frame with
`object_address = address_relative_to_object_start + static base`. -/
def resolve_safe_object_frame (env : Env) (frame : safe_object_frame) :
    Except internal_error object_frame :=
  match env.get_module_image_base frame.object_path with
  | Except.error e => Except.error e
  | Except.ok base =>
    Except.ok
      { raw_address := frame.raw_address
        object_address := wadd frame.address_relative_to_object_start base
        object_path := frame.object_path }

/-- Modelled from the spec: the capture of a `DeferredObjectFrame`
(`safe_object_frame`) is not in `src/` — only its resolver is. Per the spec,
the capture records that the address lies `offset_within_object` bytes into
the object mapped at `object_path`, i.e. the offset is the raw address minus
the object's runtime load base, with path and base obtained from the same
address query the eager path uses. -/
def capture_safe_object_frame (env : Env) (address : Nat) :
    Option safe_object_frame :=
  match env.dladdr1_result address with
  | none => none
  | some info =>
    some
      { raw_address := address
        address_relative_to_object_start := wsub address info.dli_fbase
        object_path := resolve_l_name env info.l_name }

/-- A cache entry agrees with what the platform query would answer for its
handle: every entry was produced by `get_module_name` from the live process
state, so its path is the (possibly empty-on-failure) platform answer. -/
def cache_consistent (env : Env) (cache : ModuleCache) : Prop :=
  ∀ h p, (h, p) ∈ cache → p = module_name_of env h

/-- A sequence of `get_module_name` calls threading the cache through, as the
process performs them over time: each output entry records the handle looked
up, the path returned, and whether that call issued the platform query. -/
def run_lookups (env : Env) (cache : ModuleCache) :
    List Nat → List (Nat × String × Bool) × ModuleCache
  | [] => ([], cache)
  | h :: hs =>
    let r := get_module_name env cache h
    let rest := run_lookups env r.2.1 hs
    ((h, r.1, r.2.2) :: rest.1, rest.2)

/-- Whether a recorded lookup is a platform query issued for handle `h`. -/
def queried (h : Nat) (t : Nat × String × Bool) : Bool :=
  (t.1 == h) && t.2.2

/-- A concrete process state used to evaluate the theorems on explicit
inputs: one shared library at runtime base `0x7f0000000000` with static
image base `0x1000`, the main executable at `/usr/bin/demo`, one object
whose image base lookup fails, and two Windows modules, one of which fails
the path query. -/
def testEnv : Env where
  self_exe := some "/usr/bin/demo"
  dl_find_object_result := fun a =>
    if a = 0x7f0000001234 then some ⟨some "/usr/lib/libdemo.so", 0x7efffffff000⟩
    else none
  dladdr1_result := fun a =>
    if a = 0x7f0000001234 then some ⟨some "/usr/lib/libdemo.so", 0x7f0000000000⟩
    else if a = 0x401234 then some ⟨some "", 0x400000⟩
    else if a = 0x30000500 then some ⟨some "/usr/lib/libmystery.so", 0x30000000⟩
    else none
  get_module_image_base := fun p =>
    if p = "/usr/lib/libdemo.so" then Except.ok 0x1000
    else if p = "/usr/bin/demo" then Except.ok 0x400000
    else if p = "C:/demo.dll" then Except.ok 0x1000
    else Except.error { message := "object could not be loaded" }
  module_handle_from_address := fun a =>
    if a = 0x10000234 then some 0x10000000
    else if a = 0x20000500 then some 0x20000000
    else none
  module_file_name := fun h =>
    if h = 0x10000000 then some "C:/demo.dll" else none

/-! ### Helper lemmas -/

theorem wsub_of_le {a b : Nat} (hba : b ≤ a) (ha : a < PTR_WIDTH) :
    wsub a b = a - b := by
  have hb : b < PTR_WIDTH := lt_of_le_of_lt hba ha
  unfold wsub
  rw [Nat.mod_eq_of_lt hb]
  have h1 : a + (PTR_WIDTH - b) = (a - b) + PTR_WIDTH := by omega
  rw [h1, Nat.add_mod_right, Nat.mod_eq_of_lt (by omega)]

theorem wadd_wsub_of_le {a b c : Nat} (hba : b ≤ a) (ha : a < PTR_WIDTH) :
    wadd (wsub a b) c = (a - b + c) % PTR_WIDTH := by
  rw [wsub_of_le hba ha]
  rfl

theorem resolve_l_name_of_ne {env : Env} {s : String} (hne : s ≠ "") :
    resolve_l_name env (some s) = s := by
  simp [resolve_l_name, hne]

/-! ### Claim theorems -/

/-- Claim C1: for a successful lookup of an address owned by a loaded
object, the locator returns `object_address` equal to
`raw_address - runtime_load_base + static_image_base` (in pointer-width
arithmetic) and `object_path` equal to the library's on-disk path. The first
conjunct is the `dladdr1` variant, where `dli_fbase` is the runtime load
base and the provider supplies the static base; the second is the
`_dl_find_object` variant, where `l_addr` is the load bias
`runtime_load_base - static_image_base`, so `address - l_addr` yields the
same value. -/
theorem C1_locate_object_relative_address (env : Env)
    (address fbase base : Nat) (libpath : String)
    (hq : env.dladdr1_result address = some ⟨some libpath, fbase⟩)
    (hne : libpath ≠ "")
    (hbase : env.get_module_image_base libpath = Except.ok base)
    (hle : fbase ≤ address) (ha : address < PTR_WIDTH) :
    get_frame_object_info env address =
      { raw_address := address
        object_address := (address - fbase + base) % PTR_WIDTH
        object_path := libpath } ∧
    (∀ bias, env.dl_find_object_result address = some ⟨some libpath, bias⟩ →
      bias = fbase - base → base ≤ fbase →
      get_frame_object_info_dlfo env address =
        { raw_address := address
          object_address := (address - fbase + base) % PTR_WIDTH
          object_path := libpath }) := by
  constructor
  · unfold get_frame_object_info
    rw [hq]
    simp only [resolve_l_name_of_ne hne, hbase]
    rw [wadd_wsub_of_le hle ha]
  · intro bias hdl hbias hbf
    unfold get_frame_object_info_dlfo
    rw [hdl]
    simp only [resolve_l_name_of_ne hne]
    rw [hbias, wsub_of_le (by omega) ha,
      Nat.mod_eq_of_lt (by omega)]
    congr 1
    omega

/-- Witness for C1 at the spec's scenario: library at runtime base
`0x7f0000000000`, static image base `0x1000`, queried address
`0x7f0000001234`; both variants report `object_address = 0x2234` and the
library's path. -/
theorem C1_witness :
    get_frame_object_info testEnv 0x7f0000001234 =
      { raw_address := 0x7f0000001234
        object_address := 0x2234
        object_path := "/usr/lib/libdemo.so" } ∧
    get_frame_object_info_dlfo testEnv 0x7f0000001234 =
      { raw_address := 0x7f0000001234
        object_address := 0x2234
        object_path := "/usr/lib/libdemo.so" } := by
  have h := C1_locate_object_relative_address testEnv 0x7f0000001234
    0x7f0000000000 0x1000 "/usr/lib/libdemo.so" rfl (by decide) rfl
    (by norm_num) (by norm_num [PTR_WIDTH])
  refine ⟨?_, ?_⟩
  · rw [h.1]
    congr 1
  · rw [h.2 0x7efffffff000 rfl (by norm_num) (by norm_num)]
    congr 1

/-- Claim C2: an address captured into a `safe_object_frame` and later
converted by `resolve_safe_object_frame` yields exactly the frame the eager
`get_frame_object_info` would produce directly for the same address, when
the object's static image base (the provider's answer, part of the fixed
`env`) is unchanged between the two calls. -/
theorem C2_deferred_equals_eager (env env2 : Env) (address : Nat)
    (frame : safe_object_frame) (base : Nat)
    (hcap : capture_safe_object_frame env address = some frame)
    (hsame : env2.get_module_image_base frame.object_path =
      env.get_module_image_base frame.object_path)
    (hbase : env.get_module_image_base frame.object_path = Except.ok base) :
    resolve_safe_object_frame env2 frame =
      Except.ok (get_frame_object_info env address) := by
  unfold capture_safe_object_frame at hcap
  cases hq : env.dladdr1_result address with
  | none => rw [hq] at hcap; exact absurd hcap (by simp)
  | some info =>
    rw [hq] at hcap
    simp only [Option.some.injEq] at hcap
    subst hcap
    unfold resolve_safe_object_frame get_frame_object_info
    rw [hq]
    simp only at hsame hbase ⊢
    rw [hsame, hbase]

/-- Witness for C2: the library address `0x7f0000001234` captured in
`testEnv` and resolved later equals the eager result. -/
theorem C2_witness :
    capture_safe_object_frame testEnv 0x7f0000001234 =
      some { raw_address := 0x7f0000001234
             address_relative_to_object_start := 0x1234
             object_path := "/usr/lib/libdemo.so" } ∧
    resolve_safe_object_frame testEnv
        { raw_address := 0x7f0000001234
          address_relative_to_object_start := 0x1234
          object_path := "/usr/lib/libdemo.so" } =
      Except.ok (get_frame_object_info testEnv 0x7f0000001234) :=
  ⟨by decide, C2_deferred_equals_eager testEnv testEnv 0x7f0000001234
    { raw_address := 0x7f0000001234
      address_relative_to_object_start := 0x1234
      object_path := "/usr/lib/libdemo.so" } 0x1000 (by decide) rfl rfl⟩

/-- Claim C3: the eager locator is a total function (the embedding returns a
plain `object_frame`, mirroring that the source never throws on this path),
and on each internal failure it returns the zero sentinel with whatever
partial path was obtained: a failed `dladdr1` / `_dl_find_object` /
`GetModuleHandleExA` query yields the all-zero empty frame, and a provider
failure after a successful query yields `object_address = 0` with the path
that was resolved. -/
theorem C3_locate_total_zero_on_failure (env : Env) (address : Nat) :
    (env.dladdr1_result address = none →
      get_frame_object_info env address =
        { raw_address := address, object_address := 0, object_path := "" }) ∧
    (∀ info e, env.dladdr1_result address = some info →
      env.get_module_image_base (resolve_l_name env info.l_name) =
        Except.error e →
      get_frame_object_info env address =
        { raw_address := address, object_address := 0
          object_path := resolve_l_name env info.l_name }) ∧
    (env.dl_find_object_result address = none →
      get_frame_object_info_dlfo env address =
        { raw_address := address, object_address := 0, object_path := "" }) ∧
    (∀ cache, env.module_handle_from_address address = none →
      get_frame_object_info_windows env cache address =
        ({ raw_address := address, object_address := 0, object_path := "" },
          cache)) := by
  refine ⟨fun hq => ?_, fun info e hq he => ?_, fun hq => ?_,
    fun cache hq => ?_⟩
  · unfold get_frame_object_info; rw [hq]
  · unfold get_frame_object_info; rw [hq]; simp only [he]
  · unfold get_frame_object_info_dlfo; rw [hq]
  · unfold get_frame_object_info_windows; rw [hq]

/-- Witness for C3: the unowned address `0xdead` resolves to the all-zero
empty frame on all three paths, and the address `0x30000500` whose object's
image base lookup fails resolves to `object_address = 0` with its path. -/
theorem C3_witness :
    get_frame_object_info testEnv 0xdead =
      { raw_address := 0xdead, object_address := 0, object_path := "" } ∧
    get_frame_object_info_dlfo testEnv 0xdead =
      { raw_address := 0xdead, object_address := 0, object_path := "" } ∧
    get_frame_object_info_windows testEnv [] 0xdead =
      ({ raw_address := 0xdead, object_address := 0, object_path := "" },
        []) ∧
    get_frame_object_info testEnv 0x30000500 =
      { raw_address := 0x30000500, object_address := 0
        object_path := "/usr/lib/libmystery.so" } := by
  have h := C3_locate_total_zero_on_failure testEnv 0xdead
  have h2 := C3_locate_total_zero_on_failure testEnv 0x30000500
  refine ⟨h.1 (by decide), h.2.2.1 (by decide), h.2.2.2 [] (by decide), ?_⟩
  have h3 := h2.2.1 ⟨some "/usr/lib/libmystery.so", 0x30000000⟩
    { message := "object could not be loaded" } (by decide) rfl
  rw [h3]
  congr 1

/-- Claim C4: `resolve_safe_object_frame` fails with the provider's error,
propagated to the caller, exactly when the Image Base Provider cannot
determine the static base for the frame's `object_path`; when the provider
succeeds, a resolved frame (never a zero-sentinel stand-in for the error) is
returned. -/
theorem C4_resolve_error_iff_provider_error (env : Env)
    (frame : safe_object_frame) :
    (∀ e, env.get_module_image_base frame.object_path = Except.error e →
      resolve_safe_object_frame env frame = Except.error e) ∧
    (∀ e, resolve_safe_object_frame env frame = Except.error e →
      env.get_module_image_base frame.object_path = Except.error e) ∧
    (∀ base, env.get_module_image_base frame.object_path = Except.ok base →
      ∃ rf, resolve_safe_object_frame env frame = Except.ok rf) := by
  unfold resolve_safe_object_frame
  cases hb : env.get_module_image_base frame.object_path with
  | error e =>
    exact ⟨fun e2 he => by simp_all, fun e2 he => by simp_all,
      fun base hbase => by simp_all⟩
  | ok base =>
    exact ⟨fun e2 he => by simp_all, fun e2 he => by simp_all,
      fun b hbase => ⟨_, rfl⟩⟩

/-- Witness for C4 at the spec's scenario: resolving a deferred frame with
offset `0x500` and a nonexistent object path fails with the propagated
lookup error, not a zero result. -/
theorem C4_witness :
    resolve_safe_object_frame testEnv
        { raw_address := 0x123
          address_relative_to_object_start := 0x500
          object_path := "<nonexistent>" } =
      Except.error { message := "object could not be loaded" } :=
  (C4_resolve_error_iff_provider_error testEnv
    { raw_address := 0x123
      address_relative_to_object_start := 0x500
      object_path := "<nonexistent>" }).1
    { message := "object could not be loaded" } rfl

/-- Claim C5: conversion of a deferred frame is a pure function of the frame
and the provider's answer: on success, `object_address` equals
`address_relative_to_object_start + static_image_base` (in pointer-width
arithmetic), with the raw address and path carried over unchanged. -/
theorem C5_resolve_offset_plus_base (env : Env) (frame : safe_object_frame)
    (base : Nat)
    (hbase : env.get_module_image_base frame.object_path = Except.ok base) :
    resolve_safe_object_frame env frame =
      Except.ok
        { raw_address := frame.raw_address
          object_address :=
            (frame.address_relative_to_object_start + base) % PTR_WIDTH
          object_path := frame.object_path } := by
  unfold resolve_safe_object_frame
  rw [hbase]
  rfl

/-- Witness for C5: offset `0x1234` plus static base `0x1000` gives
`object_address = 0x2234`. -/
theorem C5_witness :
    resolve_safe_object_frame testEnv
        { raw_address := 0x7f0000001234
          address_relative_to_object_start := 0x1234
          object_path := "/usr/lib/libdemo.so" } =
      Except.ok
        { raw_address := 0x7f0000001234
          object_address := 0x2234
          object_path := "/usr/lib/libdemo.so" } := by
  rw [C5_resolve_offset_plus_base testEnv
    { raw_address := 0x7f0000001234
      address_relative_to_object_start := 0x1234
      object_path := "/usr/lib/libdemo.so" } 0x1000 rfl]
  congr 1

/-- Claim C8: for an address the OS attributes to the main executable (the
link map's `l_name` is null or empty), the locator reports the process's own
executable path (read from `/proc/self/exe`), and repeated calls within one
process (a fixed `env`) all return that same path. -/
theorem C8_main_executable_path (env : Env) (address : Nat) (p : String)
    (info : dladdr_entry)
    (hexe : env.self_exe = some p)
    (hq : env.dladdr1_result address = some info)
    (hmain : info.l_name = none ∨ info.l_name = some "") :
    (get_frame_object_info env address).object_path = p ∧
    (∀ n, (List.replicate n address).map
        (fun a => (get_frame_object_info env a).object_path) =
      List.replicate n p) := by
  have hpath : resolve_l_name env info.l_name = p := by
    rcases hmain with hm | hm <;> rw [hm] <;> simp [resolve_l_name, hexe]
  have hone : (get_frame_object_info env address).object_path = p := by
    unfold get_frame_object_info
    rw [hq]
    cases hb : env.get_module_image_base (resolve_l_name env info.l_name) <;>
      simp only [hb] <;> exact hpath
  exact ⟨hone, fun n => by simp [hone]⟩

/-- Witness for C8: the main-executable address `0x401234` in `testEnv`
(empty `l_name`) reports `/usr/bin/demo`, three times over. -/
theorem C8_witness :
    (get_frame_object_info testEnv 0x401234).object_path = "/usr/bin/demo" ∧
    (List.replicate 3 0x401234).map
        (fun a => (get_frame_object_info testEnv a).object_path) =
      List.replicate 3 "/usr/bin/demo" := by
  have h := C8_main_executable_path testEnv 0x401234 "/usr/bin/demo"
    ⟨some "", 0x400000⟩ rfl (by decide) (Or.inr rfl)
  exact ⟨h.1, h.2 3⟩

/-- Claim C9: on the eager paths, when the owning object is identified but
the Image Base Provider fails for its path, the error is discarded (never
propagated), `object_address` stays `0`, and the frame still carries the
object path that was obtained — on the `dladdr1` path and on the Windows
handle path alike. -/
theorem C9_eager_discards_provider_error (env : Env) (address : Nat) :
    (∀ info e, env.dladdr1_result address = some info →
      env.get_module_image_base (resolve_l_name env info.l_name) =
        Except.error e →
      get_frame_object_info env address =
        { raw_address := address, object_address := 0
          object_path := resolve_l_name env info.l_name }) ∧
    (∀ cache handle e, env.module_handle_from_address address = some handle →
      env.get_module_image_base (get_module_name env cache handle).1 =
        Except.error e →
      get_frame_object_info_windows env cache address =
        ({ raw_address := address, object_address := 0
           object_path := (get_module_name env cache handle).1 },
          (get_module_name env cache handle).2.1)) := by
  constructor
  · intro info e hq he
    unfold get_frame_object_info
    rw [hq]
    simp only [he]
  · intro cache handle e hq he
    unfold get_frame_object_info_windows
    rw [hq]
    simp only [he]

/-- Witness for C9: in `testEnv`, address `0x30000500` is owned by
`/usr/lib/libmystery.so` whose base lookup fails — the frame keeps the path
with a zero `object_address`; likewise the Windows address `0x20000500`
whose module-name query fails, leaving an empty path, a zero
`object_address`, and a negative cache entry. -/
theorem C9_witness :
    get_frame_object_info testEnv 0x30000500 =
      { raw_address := 0x30000500, object_address := 0
        object_path := "/usr/lib/libmystery.so" } ∧
    get_frame_object_info_windows testEnv [] 0x20000500 =
      ({ raw_address := 0x20000500, object_address := 0, object_path := "" },
        [(0x20000000, "")]) := by
  have h := C9_eager_discards_provider_error testEnv 0x30000500
  have h2 := C9_eager_discards_provider_error testEnv 0x20000500
  constructor
  · have h3 := h.1 ⟨some "/usr/lib/libmystery.so", 0x30000000⟩
      { message := "object could not be loaded" } (by decide) rfl
    rw [h3]
    congr 1
  · have h4 := h2.2 [] 0x20000000
      { message := "object could not be loaded" } (by decide) rfl
    rw [h4]
    congr 1

/-- Claim C10: on every platform variant and on both success and failure,
the returned frame's `raw_address` equals the queried address — the original
runtime address is never lost or altered by resolution. -/
theorem C10_raw_address_preserved (env : Env) (address : Nat)
    (cache : ModuleCache) :
    (get_frame_object_info env address).raw_address = address ∧
    (get_frame_object_info_dlfo env address).raw_address = address ∧
    ((get_frame_object_info_windows env cache address).1).raw_address =
      address := by
  refine ⟨?_, ?_, ?_⟩
  · unfold get_frame_object_info
    split
    · rfl
    · dsimp only
      split <;> rfl
  · unfold get_frame_object_info_dlfo
    split <;> rfl
  · unfold get_frame_object_info_windows
    split
    · rfl
    · dsimp only
      split <;> rfl

/-! ### Cache lemmas for the Windows path -/

theorem lookup_mem {cache : ModuleCache} {h : Nat} {p : String}
    (hl : List.lookup h cache = some p) : (h, p) ∈ cache := by
  induction cache with
  | nil => simp at hl
  | cons hd tl ih =>
    obtain ⟨k, q⟩ := hd
    rw [List.lookup_cons] at hl
    by_cases he : h = k
    · subst he
      simp only [beq_self_eq_true] at hl
      injection hl with hl
      subst hl
      exact List.mem_cons_self _ _
    · rw [beq_false_of_ne he] at hl
      exact List.mem_cons_of_mem _ (ih hl)

theorem empty_cache_consistent (env : Env) : cache_consistent env [] := by
  intro k q hkq
  simp at hkq

theorem get_module_name_fst (env : Env) (cache : ModuleCache) (h : Nat)
    (hcons : cache_consistent env cache) :
    (get_module_name env cache h).1 = module_name_of env h := by
  unfold get_module_name
  cases hl : List.lookup h cache with
  | some p => exact hcons h p (lookup_mem hl)
  | none =>
    unfold module_name_of
    cases env.module_file_name h <;> rfl

theorem get_module_name_cache_consistent (env : Env) (cache : ModuleCache)
    (h : Nat) (hcons : cache_consistent env cache) :
    cache_consistent env (get_module_name env cache h).2.1 := by
  unfold get_module_name
  cases hl : List.lookup h cache with
  | some p => exact hcons
  | none =>
    cases hf : env.module_file_name h with
    | some path =>
      intro k q hkq
      rcases List.mem_cons.mp hkq with heq | hmem
      · injection heq with hk hq
        subst hk; subst hq
        unfold module_name_of
        rw [hf]
      · exact hcons k q hmem
    | none =>
      intro k q hkq
      rcases List.mem_cons.mp hkq with heq | hmem
      · injection heq with hk hq
        subst hk; subst hq
        unfold module_name_of
        rw [hf]
      · exact hcons k q hmem

theorem get_module_name_on_hit (env : Env) (cache : ModuleCache) (h : Nat)
    (p : String) (hl : List.lookup h cache = some p) :
    get_module_name env cache h = (p, cache, false) := by
  unfold get_module_name
  rw [hl]

theorem get_module_name_on_miss (env : Env) (cache : ModuleCache) (h : Nat)
    (hl : List.lookup h cache = none) :
    get_module_name env cache h =
      (module_name_of env h, (h, module_name_of env h) :: cache, true) := by
  unfold get_module_name module_name_of
  rw [hl]
  cases env.module_file_name h <;> rfl

theorem lookup_isSome_after_gmn (env : Env) (cache : ModuleCache)
    (h0 h : Nat) (hl : (List.lookup h cache).isSome) :
    (List.lookup h (get_module_name env cache h0).2.1).isSome := by
  cases hl0 : List.lookup h0 cache with
  | some p => rw [get_module_name_on_hit env cache h0 p hl0]; exact hl
  | none =>
    rw [get_module_name_on_miss env cache h0 hl0]
    by_cases he : h = h0
    · subst he
      simp [List.lookup_cons]
    · simp only [List.lookup_cons, beq_false_of_ne he]
      exact hl

theorem run_lookups_results_consistent (env : Env) (hs : List Nat)
    (cache : ModuleCache) (hcons : cache_consistent env cache) :
    ∀ t ∈ (run_lookups env cache hs).1, t.2.1 = module_name_of env t.1 := by
  induction hs generalizing cache with
  | nil =>
    intro t ht
    simp [run_lookups] at ht
  | cons h0 hs ih =>
    intro t ht
    simp only [run_lookups, List.mem_cons] at ht
    rcases ht with rfl | hmem
    · exact get_module_name_fst env cache h0 hcons
    · exact ih (get_module_name env cache h0).2.1
        (get_module_name_cache_consistent env cache h0 hcons) t hmem

theorem run_lookups_no_query_when_cached (env : Env) (hs : List Nat)
    (cache : ModuleCache) (h : Nat)
    (hmem : (List.lookup h cache).isSome) :
    ∀ t ∈ (run_lookups env cache hs).1, t.1 = h → t.2.2 = false := by
  induction hs generalizing cache with
  | nil =>
    intro t ht
    simp [run_lookups] at ht
  | cons h0 hs ih =>
    intro t ht hth
    simp only [run_lookups, List.mem_cons] at ht
    rcases ht with rfl | hmem2
    · simp only at hth
      subst hth
      obtain ⟨p, hp⟩ := Option.isSome_iff_exists.mp hmem
      rw [get_module_name_on_hit env cache _ p hp]
    · exact ih (get_module_name env cache h0).2.1
        (lookup_isSome_after_gmn env cache h0 h hmem) t hmem2 hth

theorem filter_queried_eq_nil {l : List (Nat × String × Bool)} {h : Nat}
    (hl : ∀ t ∈ l, t.1 = h → t.2.2 = false) :
    l.filter (queried h) = [] := by
  rw [List.filter_eq_nil_iff]
  intro t ht
  unfold queried
  by_cases he : t.1 = h
  · simp [he, hl t ht he]
  · simp [beq_false_of_ne he]

theorem run_lookups_at_most_one_query (env : Env) (hs : List Nat)
    (cache : ModuleCache) (h : Nat) :
    ((run_lookups env cache hs).1.filter (queried h)).length ≤ 1 := by
  induction hs generalizing cache with
  | nil => simp [run_lookups]
  | cons h0 hs ih =>
    simp only [run_lookups, List.filter_cons]
    cases hl0 : List.lookup h0 cache with
    | some p =>
      rw [get_module_name_on_hit env cache h0 p hl0]
      have hq : queried h (h0, p, false) = false := by
        simp [queried]
      rw [hq]
      simp only [Bool.false_eq_true, if_false]
      exact ih cache
    | none =>
      rw [get_module_name_on_miss env cache h0 hl0]
      by_cases he : h0 = h
      · subst he
        have hq : queried h0 (h0, module_name_of env h0, true) = true := by
          simp [queried]
        rw [hq]
        simp only [if_true]
        have hrest : ((run_lookups env
            ((h0, module_name_of env h0) :: cache) hs).1.filter
              (queried h0)).length = 0 := by
          rw [filter_queried_eq_nil
            (run_lookups_no_query_when_cached env hs _ h0
              (by simp [List.lookup_cons]))]
          rfl
        rw [List.length_cons, hrest]
      · have hq : queried h (h0, module_name_of env h0, true) = false := by
          simp [queried, beq_false_of_ne he]
        rw [hq]
        simp only [Bool.false_eq_true, if_false]
        exact ih ((h0, module_name_of env h0) :: cache)

/-- Claim C7: a run of module-path-cache lookups issues at most one platform
path query per distinct handle; a successful query's path is returned on
every lookup of that handle, and a failing query results in the empty string
(the negative cache entry) on every lookup of that handle, never a retry. -/
theorem C7_cache_at_most_one_query (env : Env) (hs : List Nat) (h : Nat) :
    ((run_lookups env [] hs).1.filter (queried h)).length ≤ 1 ∧
    (∀ p, env.module_file_name h = some p →
      ∀ t ∈ (run_lookups env [] hs).1, t.1 = h → t.2.1 = p) ∧
    (env.module_file_name h = none →
      ∀ t ∈ (run_lookups env [] hs).1, t.1 = h → t.2.1 = "") := by
  refine ⟨run_lookups_at_most_one_query env hs [] h, ?_, ?_⟩
  · intro p hp t ht hth
    have hc := run_lookups_results_consistent env hs []
      (empty_cache_consistent env) t ht
    rw [hc, hth]
    unfold module_name_of
    rw [hp]
  · intro hp t ht hth
    have hc := run_lookups_results_consistent env hs []
      (empty_cache_consistent env) t ht
    rw [hc, hth]
    unfold module_name_of
    rw [hp]

/-- Witness for C7: four lookups — twice the handle whose path query
succeeds, twice the handle whose query fails — issue at most one query for
the first handle, and both its lookups return the queried path. -/
theorem C7_witness :
    ((run_lookups testEnv []
        [0x10000000, 0x10000000, 0x20000000, 0x20000000]).1.filter
          (queried 0x10000000)).length ≤ 1 ∧
    (∀ t ∈ (run_lookups testEnv []
        [0x10000000, 0x10000000, 0x20000000, 0x20000000]).1,
      t.1 = 0x10000000 → t.2.1 = "C:/demo.dll") := by
  have h := C7_cache_at_most_one_query testEnv
    [0x10000000, 0x10000000, 0x20000000, 0x20000000] 0x10000000
  exact ⟨h.1, h.2.1 "C:/demo.dll" rfl⟩

theorem get_frame_object_info_windows_fst (env : Env) (cache : ModuleCache)
    (address : Nat) (hcons : cache_consistent env cache) :
    (get_frame_object_info_windows env cache address).1 =
      (get_frame_object_info_windows env [] address).1 := by
  unfold get_frame_object_info_windows
  cases env.module_handle_from_address address with
  | none => rfl
  | some handle =>
    dsimp only
    rw [get_module_name_fst env cache handle hcons,
      get_module_name_fst env [] handle (empty_cache_consistent env)]
    cases env.get_module_image_base (module_name_of env handle) <;> rfl

theorem get_frame_object_info_windows_snd_consistent (env : Env)
    (cache : ModuleCache) (address : Nat)
    (hcons : cache_consistent env cache) :
    cache_consistent env (get_frame_object_info_windows env cache address).2 := by
  unfold get_frame_object_info_windows
  cases env.module_handle_from_address address with
  | none => exact hcons
  | some handle =>
    dsimp only
    cases env.get_module_image_base (get_module_name env cache handle).1 <;>
      exact get_module_name_cache_consistent env cache handle hcons

theorem get_frames_object_info_windows_map (env : Env) (cache : ModuleCache)
    (addresses : List Nat) (hcons : cache_consistent env cache) :
    (get_frames_object_info_windows env cache addresses).1 =
      addresses.map (fun a => (get_frame_object_info_windows env [] a).1) := by
  induction addresses generalizing cache with
  | nil => rfl
  | cons a rest ih =>
    simp only [get_frames_object_info_windows, List.map_cons]
    rw [get_frame_object_info_windows_fst env cache a hcons,
      ih (get_frame_object_info_windows env cache a).2
        (get_frame_object_info_windows_snd_consistent env cache a hcons)]

/-- Claim C6: the batch locator is length-preserving and purely elementwise:
the `i`-th result is the single-address locator applied to the `i`-th input,
with no cross-element interaction. On the Windows variant, where the module
name cache threads through the loop, the output frames starting from any
consistent cache (in particular the empty one) still equal the independent
per-address results. -/
theorem C6_batch_elementwise (env : Env) (addresses : List Nat) :
    (get_frames_object_info env addresses).length = addresses.length ∧
    (∀ i (hi : i < addresses.length)
        (hi2 : i < (get_frames_object_info env addresses).length),
      (get_frames_object_info env addresses).get ⟨i, hi2⟩ =
        get_frame_object_info env (addresses.get ⟨i, hi⟩)) ∧
    (∀ cache, cache_consistent env cache →
      (get_frames_object_info_windows env cache addresses).1 =
        addresses.map (fun a => (get_frame_object_info_windows env [] a).1)) := by
  refine ⟨by simp [get_frames_object_info], ?_, ?_⟩
  · intro i hi hi2
    simp [get_frames_object_info, List.get_eq_getElem, List.getElem_map]
  · intro cache hcons
    exact get_frames_object_info_windows_map env cache addresses hcons

/-- Witness for C6: a three-address batch has length three, its second
element is the single-address result for the second input, and a two-address
Windows batch from the empty cache equals the elementwise map. -/
theorem C6_witness :
    (get_frames_object_info testEnv [0x7f0000001234, 0xdead, 0x30000500]).length
      = 3 ∧
    (get_frames_object_info testEnv
        [0x7f0000001234, 0xdead, 0x30000500]).get ⟨1, by decide⟩ =
      get_frame_object_info testEnv 0xdead ∧
    (get_frames_object_info_windows testEnv []
        [0x10000234, 0x10000234]).1 =
      [0x10000234, 0x10000234].map
        (fun a => (get_frame_object_info_windows testEnv [] a).1) := by
  have h := C6_batch_elementwise testEnv [0x7f0000001234, 0xdead, 0x30000500]
  have h2 := C6_batch_elementwise testEnv [0x10000234, 0x10000234]
  exact ⟨h.1, h.2.1 1 (by decide) (by decide),
    h2.2.2 [] (empty_cache_consistent testEnv)⟩

end Cpptrace
